import Mathlib

/-!
Shallow embedding of backup.py (incremental-backup-r2): an incremental
PostgreSQL backup script that dumps a database, fingerprints the dump,
uploads changed dumps to R2 object storage, persists a bounded history in
a JSON state file, and runs local/remote retention sweeps.

External effects (the subprocess result, the remote transfer outcome, file
timestamps, the clock) are passed in as explicit parameters; the pure
control flow and state transformations are translated line by line from
the source.
-/

/-- One entry of state["backups"] as appended in run_backup (backup.py
lines 300-305). -/
structure BackupEntry where
  file : String
  hash : String
  r2_key : String
  timestamp : String
deriving DecidableEq, Repr

/-- The persisted state dictionary. load_state (line 71) defaults to
last_hash = None and backups = []; last_upload is absent until first set,
modelled as Option. -/
structure BState where
  last_hash : Option String
  last_upload : Option String
  backups : List BackupEntry
deriving DecidableEq, Repr

/-- The default state returned by load_state when no state file exists
(backup.py line 71). -/
def initialState : BState :=
  { last_hash := none, last_upload := none, backups := [] }

/-- The configuration dictionary built by load_env (lines 32-48). Values
read from the environment are Option String (None when unset); the R2 key
prefix field of the source is named r2PrefixStr here. -/
structure Config where
  container_name : String
  db_name : Option String
  db_user : Option String
  r2_account_id : Option String
  r2_access_key : Option String
  r2_secret_key : Option String
  r2_bucket : Option String
  r2PrefixStr : String
  keep_local_days : Int
  keep_remote_days : Int
deriving DecidableEq, Repr

/-- Python truthiness of an Option String value: None and the empty
string are falsy, as tested by all([...]) in lines 141, 204, 248. -/
def truthy : Option String → Bool
  | none => false
  | some s => decide (s ≠ "")

/-- The all([account_id, access_key, secret_key, bucket]) guard used at
lines 141, 204 and 248. -/
def r2Configured (c : Config) : Bool :=
  truthy c.r2_account_id && truthy c.r2_access_key &&
    truthy c.r2_secret_key && truthy c.r2_bucket

/-- Outcome of the external docker-exec pg_dump invocation inside
create_backup. completed carries the subprocess return code, whether the
output file exists afterwards, and its byte size; timeout is
subprocess.TimeoutExpired (raised after open() already created the file);
exception is any other exception, with the file-present flag at the time
it is raised. -/
inductive DumpResult where
  | completed (returncode : Int) (fileExists : Bool) (size : Nat)
  | timeout
  | exception (filePresent : Bool)
deriving DecidableEq, Repr

/-- create_backup (lines 89-136). Returns (returned path, whether the
dump file is present on disk after the call). Success branch (line 121)
requires returncode 0, file exists, size > 0; the else branch (lines
125-129) unlinks the file if it exists; the timeout handler (line 131)
and the generic exception handler (line 134) return None without
touching the file. On timeout the file was already created by
open(backup_path, 'w'), so it remains present. -/
def create_backup (fname : String) (d : DumpResult) : Option String × Bool :=
  match d with
  | DumpResult.completed rc ex size =>
      if rc = 0 ∧ ex = true ∧ 0 < size then (some fname, true)
      else (none, false)
  | DumpResult.timeout => (none, true)
  | DumpResult.exception fp => (none, fp)

/-- upload_to_r2 (lines 139-169). transferOk says whether the remote
transfer would succeed if attempted. Returns (r2 key option, whether a
transfer was attempted). Missing configuration returns None with no
attempt (lines 141-143); a failed transfer is caught and returns None
(lines 167-169). -/
def upload_to_r2 (c : Config) (fname : String) (transferOk : Bool) :
    Option String × Bool :=
  if r2Configured c = false then (none, false)
  else if transferOk then (some (c.r2PrefixStr ++ "/" ++ fname), true)
  else (none, true)

/-- check_changes (lines 172-181): compares the freshly computed digest
with state.get("last_hash"); returns (changed?, current hash). -/
def check_changes (currentHash : String) (state : BState) : Bool × String :=
  if state.last_hash = some currentHash then (false, currentHash)
  else (true, currentHash)

/-- Python list slicing l[-100:]: the most recent (last) n entries, in
order; the whole list when it is shorter than n. -/
def takeLast (n : Nat) (l : List α) : List α :=
  l.drop (l.length - n)

/-- A file of the local backup directory: name and modification time
(seconds). -/
structure LocalFile where
  name : String
  mtime : Int
deriving DecidableEq, Repr

/-- The glob pattern "backup_*.sql" used at line 192: a name matches iff
it starts with "backup_", ends with ".sql", and is long enough that the
two do not overlap. -/
def matchesBackupGlob (name : String) : Bool :=
  name.startsWith "backup_" && name.endsWith ".sql" && decide (11 ≤ name.length)

/-- cleanup_local (lines 184-199): delete every file matching the glob
whose mtime is strictly before now - keep_local_days days; the result is
the list of files remaining. Times are in seconds, one day = 86400. -/
def cleanup_local (keepLocalDays : Int) (now : Int) (files : List LocalFile) :
    List LocalFile :=
  let cutoff := now - 86400 * keepLocalDays
  files.filter (fun f => !(matchesBackupGlob f.name && decide (f.mtime < cutoff)))

/-- A remote object as returned by list_objects_v2: key and last-modified
time (seconds). -/
structure RObj where
  key : String
  lastModified : Int
deriving DecidableEq, Repr

/-- cleanup_r2 (lines 202-227): a no-op when R2 is not configured (lines
204-205); otherwise delete every listed object strictly older than
now - keep_remote_days days. The result is the list of objects
remaining. -/
def cleanup_r2 (c : Config) (now : Int) (objs : List RObj) : List RObj :=
  if r2Configured c then
    let cutoff := now - 86400 * c.keep_remote_days
    objs.filter (fun o => !(decide (o.lastModified < cutoff)))
  else objs

/-- The chunked read loop of calculate_hash (line 84):
iter(lambda: f.read(8192), b"") yields successive 8192-byte chunks of the
file content until exhausted. -/
def readChunks (l : List Nat) : List (List Nat) :=
  if l.isEmpty then [] else l.take 8192 :: readChunks (l.drop 8192)
termination_by l.length
decreasing_by
  simp only [List.length_drop]
  have hne : ¬ l.isEmpty := by assumption
  have : l.length ≠ 0 := by
    simpa [List.isEmpty_iff_length_eq_zero] using hne
  omega

/-- calculate_hash (lines 80-86). The hashlib md5 object is modelled by
its documented contract: feeding chunks by successive update() calls is
equivalent to one update with their concatenation, so the digest is the
abstract digest function md5 applied to the concatenation of the chunks
read. -/
def calculate_hash (md5 : List Nat → String) (content : List Nat) : String :=
  md5 (List.flatten (readChunks content))

/-- The one-pass digest of the whole byte sequence, for comparison with
the streaming computation. -/
def onePassDigest (md5 : List Nat → String) (content : List Nat) : String :=
  md5 content

/-- All inputs of one run_backup invocation: the flag, the loaded state
and config, and the outcomes of the external effects (dump subprocess,
digest of the produced dump, remote transfer success, clock). -/
structure RunEnv where
  force : Bool
  state : BState
  config : Config
  dump : DumpResult
  dumpFileName : String
  dumpHash : String
  transferOk : Bool
  now : String
deriving DecidableEq, Repr

/-- Observable outcome of run_backup: the returned Bool, the state passed
to save_state (none when save_state is not called), whether the
just-created dump was unlinked in the skip branch (line 311), how many
times upload_to_r2 was invoked, and whether each cleanup function was
invoked. -/
structure RunResult where
  success : Bool
  savedState : Option BState
  dumpDeleted : Bool
  uploadCalls : Nat
  cleanupLocalRan : Bool
  cleanupR2Ran : Bool
deriving DecidableEq, Repr

/-- run_backup (lines 274-319), translated branch by branch. Dump failure
returns False before any state change or cleanup (lines 286-288). The
upload branch (lines 293-309) always sets last_hash and last_upload and
saves; it appends a history entry, trimmed to the last 100, only when
upload_to_r2 returned a key. The skip branch (lines 310-312) unlinks the
dump and saves nothing. Both cleanups run afterwards (lines 316-317). -/
def run_backup (e : RunEnv) : RunResult :=
  match (create_backup e.dumpFileName e.dump).1 with
  | none =>
      { success := false, savedState := none, dumpDeleted := false,
        uploadCalls := 0, cleanupLocalRan := false, cleanupR2Ran := false }
  | some _ =>
      let cc := check_changes e.dumpHash e.state
      let needs_upload := cc.1
      let current_hash := cc.2
      if needs_upload || e.force then
        let r2_key := (upload_to_r2 e.config e.dumpFileName e.transferOk).1
        let st1 : BState :=
          { e.state with last_hash := some current_hash, last_upload := some e.now }
        let st2 : BState :=
          match r2_key with
          | some k =>
              { st1 with backups := takeLast 100 (st1.backups ++
                  [{ file := e.dumpFileName, hash := current_hash,
                     r2_key := k, timestamp := e.now }]) }
          | none => st1
        { success := true, savedState := some st2, dumpDeleted := false,
          uploadCalls := 1, cleanupLocalRan := true, cleanupR2Ran := true }
      else
        { success := true, savedState := none, dumpDeleted := true,
          uploadCalls := 0, cleanupLocalRan := true, cleanupR2Ran := true }

/-- The state run_backup persists in the upload branch: last_hash and
last_upload always updated; a history entry appended, trimmed to the last
100, exactly when upload_to_r2 returned a key. -/
def uploadBranchState (e : RunEnv) : BState :=
  { last_hash := some e.dumpHash, last_upload := some e.now,
    backups :=
      match (upload_to_r2 e.config e.dumpFileName e.transferOk).1 with
      | some k =>
          takeLast 100 (e.state.backups ++
            [{ file := e.dumpFileName, hash := e.dumpHash,
               r2_key := k, timestamp := e.now }])
      | none => e.state.backups }

/-- A configuration with no R2 credentials set (local-only operation). -/
def cfgNoR2 : Config :=
  { container_name := "saifer-postgres-1", db_name := some "db",
    db_user := some "u", r2_account_id := none, r2_access_key := none,
    r2_secret_key := none, r2_bucket := none, r2PrefixStr := "backups",
    keep_local_days := 7, keep_remote_days := 30 }

/-- A fully configured R2 setup. -/
def cfgR2 : Config :=
  { container_name := "saifer-postgres-1", db_name := some "db",
    db_user := some "u", r2_account_id := some "acct",
    r2_access_key := some "ak", r2_secret_key := some "sk",
    r2_bucket := some "bkt", r2PrefixStr := "backups",
    keep_local_days := 7, keep_remote_days := 30 }

/-- A run whose dump subprocess exits non-zero. -/
def envDumpFail : RunEnv :=
  { force := false, state := initialState, config := cfgNoR2,
    dump := DumpResult.completed 1 true 0,
    dumpFileName := "backup_db_20250101_000000.sql",
    dumpHash := "h1", transferOk := false, now := "t1" }

/-- A forced run with unchanged content and R2 not configured. -/
def envForcedNoR2 : RunEnv :=
  { force := true,
    state := { last_hash := some "h1", last_upload := some "t0", backups := [] },
    config := cfgNoR2, dump := DumpResult.completed 0 true 5,
    dumpFileName := "backup_db_20250102_000000.sql",
    dumpHash := "h1", transferOk := true, now := "t1" }

/-- A forced run with unchanged content, R2 configured, transfer ok. -/
def envForcedR2 : RunEnv :=
  { force := true,
    state := { last_hash := some "h1", last_upload := some "t0", backups := [] },
    config := cfgR2, dump := DumpResult.completed 0 true 5,
    dumpFileName := "backup_db_20250102_000000.sql",
    dumpHash := "h1", transferOk := true, now := "t1" }

/-- An unforced run whose dump hash equals the recorded last hash. -/
def envSkip : RunEnv :=
  { force := false,
    state := { last_hash := some "h1", last_upload := some "t0", backups := [] },
    config := cfgNoR2, dump := DumpResult.completed 0 true 5,
    dumpFileName := "backup_db_20250103_000000.sql",
    dumpHash := "h1", transferOk := true, now := "t2" }

/-- A changed-content run whose remote transfer fails. -/
def envUploadFail : RunEnv :=
  { force := false,
    state := { last_hash := some "h0", last_upload := some "t0", backups := [] },
    config := cfgR2, dump := DumpResult.completed 0 true 7,
    dumpFileName := "backup_db_20250104_000000.sql",
    dumpHash := "h1", transferOk := false, now := "t3" }

/-- A first run: no state file yet, so last_hash is None. -/
def envFirstRun : RunEnv :=
  { force := false, state := initialState, config := cfgNoR2,
    dump := DumpResult.completed 0 true 9,
    dumpFileName := "backup_db_20250105_000000.sql",
    dumpHash := "h1", transferOk := true, now := "t4" }

/-- Sample local directory contents for the retention sweep. -/
def demoFiles : List LocalFile :=
  [{ name := "backup_db_old.sql", mtime := 0 },
   { name := "backup_db_new.sql", mtime := 86400 * 9 },
   { name := "notes.txt", mtime := 0 }]

/-- Sample remote listing for the remote sweep. -/
def demoObjs : List RObj :=
  [{ key := "backups/backup_db_old.sql", lastModified := 0 }]

/-- A sample abstract digest function for witnesses. -/
def demoMd5 : List Nat → String :=
  fun l => toString l.length

/-- A sample byte content spanning several 8192-byte chunks. -/
def demoContent : List Nat :=
  List.range 20000

theorem takeLast_of_length_le (n : Nat) (l : List α) (h : l.length ≤ n) :
    takeLast n l = l := by
  simp [takeLast, Nat.sub_eq_zero_of_le h]

theorem takeLast_length (n : Nat) (l : List α) :
    (takeLast n l).length = min l.length n := by
  simp [takeLast]
  omega

theorem takeLast_suffix (n : Nat) (l : List α) :
    List.IsSuffix (takeLast n l) l :=
  List.drop_suffix _ _

theorem readChunks_flatten (l : List Nat) : (readChunks l).flatten = l := by
  rw [readChunks]
  split_ifs with h
  · simp [List.isEmpty_iff.mp h]
  · have ih := readChunks_flatten (l.drop 8192)
    simp [ih]
termination_by l.length
decreasing_by
  simp only [List.length_drop]
  have : l.length ≠ 0 := by
    simpa [List.isEmpty_iff_length_eq_zero] using h
  omega

/-- Claim C1 as stated is false at a timeout: create_backup aborts (no
path returned) but the partially written dump file remains on disk, so
the file is not deleted on every failure. -/
theorem C1_counterexample :
    (create_backup "backup_db_20250101_000000.sql" DumpResult.timeout).1 = none ∧
    (create_backup "backup_db_20250101_000000.sql" DumpResult.timeout).2 = true :=
  ⟨rfl, rfl⟩

/-- Claim C1 (amended): whenever the dump fails, the run is aborted with
no state mutation; success is returned exactly when the subprocess
completed with exit code zero, an existing output file, and size > 0; and
the partial file is deleted on failure only in the completed-process
case (non-zero exit, missing or empty output), not on timeout or
exception. -/
theorem C1_amended (e : RunEnv) :
    ((create_backup e.dumpFileName e.dump).1 = none →
      (run_backup e).success = false ∧ (run_backup e).savedState = none) ∧
    ((create_backup e.dumpFileName e.dump).1.isSome = true ↔
      ∃ rc ex size, e.dump = DumpResult.completed rc ex size ∧
        rc = 0 ∧ ex = true ∧ 0 < size) ∧
    (∀ rc ex size, e.dump = DumpResult.completed rc ex size →
      (create_backup e.dumpFileName e.dump).1 = none →
      (create_backup e.dumpFileName e.dump).2 = false) := by
  refine ⟨fun h => ?_, ?_, ?_⟩
  · simp [run_backup, h]
  · cases hd : e.dump with
    | completed rc ex size =>
        simp only [create_backup]
        split_ifs with hc
        · simp only [Option.isSome_some, true_iff]
          exact ⟨rc, ex, size, rfl, hc.1, hc.2.1, hc.2.2⟩
        · simp only [Option.isSome_none, Bool.false_eq_true, false_iff]
          rintro ⟨rc2, ex2, size2, heq, h0, h1, h2⟩
          rw [DumpResult.completed.injEq] at heq
          obtain ⟨e1, e2, e3⟩ := heq
          subst e1; subst e2; subst e3
          exact hc ⟨h0, h1, h2⟩
    | timeout => simp [create_backup]
    | exception fp => simp [create_backup]
  · intro rc ex size hd h
    rw [hd] at h ⊢
    by_cases hc : rc = 0 ∧ ex = true ∧ 0 < size
    · simp [create_backup, hc] at h
    · simp [create_backup, hc]

/-- Concrete instance of C1_amended: a non-zero-exit dump aborts the run
with no state save. -/
theorem C1_witness :
    (run_backup envDumpFail).success = false ∧
    (run_backup envDumpFail).savedState = none :=
  (C1_amended envDumpFail).1 (by decide)

/-- Claim C2 as stated is false: a forced run with R2 not configured
succeeds and saves state with last_hash updated, but no history entry is
appended (upload_to_r2 returned no key), so the backups list stays
empty. -/
theorem C2_counterexample :
    envForcedNoR2.force = true ∧
    (run_backup envForcedNoR2).savedState =
      some { last_hash := some "h1", last_upload := some "t1", backups := [] } := by
  decide

/-- Claim C2 (amended): a forced run whose dump succeeded always takes
the upload path (even when the digest equals last_hash), updates
last_hash to the new digest and persists the state; a history entry is
appended exactly when the upload returned a key. -/
theorem C2_amended (e : RunEnv) (hf : e.force = true)
    (hd : (create_backup e.dumpFileName e.dump).1.isSome = true) :
    (run_backup e).uploadCalls = 1 ∧
    (run_backup e).savedState = some (uploadBranchState e) := by
  obtain ⟨p, hp⟩ := Option.isSome_iff_exists.mp hd
  have hb : check_changes e.dumpHash e.state =
      (decide (¬ e.state.last_hash = some e.dumpHash), e.dumpHash) := by
    simp only [check_changes]
    split_ifs with h <;> simp [h]
  simp only [run_backup, hp, hb, hf, Bool.or_true, if_true]
  constructor
  · trivial
  · simp only [uploadBranchState]
    cases hk : (upload_to_r2 e.config e.dumpFileName e.transferOk).1 <;> simp

/-- Concrete instance of C2_amended: a forced run with unchanged content
and a successful upload appends a history entry and updates
last_hash. -/
theorem C2_witness :
    (run_backup envForcedR2).uploadCalls = 1 ∧
    (run_backup envForcedR2).savedState = some (uploadBranchState envForcedR2) :=
  C2_amended envForcedR2 rfl (by decide)

/-- Claim C3 as stated is false: when dump production fails, run_backup
returns before either retention sweep, so neither cleanup runs. -/
theorem C3_counterexample :
    (create_backup envDumpFail.dumpFileName envDumpFail.dump).1 = none ∧
    (run_backup envDumpFail).cleanupLocalRan = false ∧
    (run_backup envDumpFail).cleanupR2Ran = false := by
  decide

/-- Claim C3 (amended): both retention sweeps run at the end of every
invocation in which dump production succeeded, whether the run uploaded
or skipped; when dump production fails the run aborts before the
sweeps. -/
theorem C3_amended (e : RunEnv) :
    (run_backup e).cleanupLocalRan = (create_backup e.dumpFileName e.dump).1.isSome ∧
    (run_backup e).cleanupR2Ran = (create_backup e.dumpFileName e.dump).1.isSome := by
  cases hp : (create_backup e.dumpFileName e.dump).1 with
  | none => simp [run_backup, hp]
  | some p =>
      simp only [run_backup, hp, Option.isSome_some]
      split_ifs <;> simp

/-- Claim C4: in a run whose dump succeeded, the just-created dump file
is unlinked immediately exactly when its digest equals the recorded
last_hash and the run was not forced; in that skip case no upload is
attempted and no state is saved; and upload_to_r2 is invoked at most
once per run. -/
theorem C4_skip_frame (e : RunEnv)
    (hd : (create_backup e.dumpFileName e.dump).1.isSome = true) :
    ((run_backup e).dumpDeleted = true ↔
      (e.state.last_hash = some e.dumpHash ∧ e.force = false)) ∧
    ((run_backup e).dumpDeleted = true →
      (run_backup e).uploadCalls = 0 ∧ (run_backup e).savedState = none) ∧
    (run_backup e).uploadCalls ≤ 1 := by
  obtain ⟨p, hp⟩ := Option.isSome_iff_exists.mp hd
  have hb : check_changes e.dumpHash e.state =
      (decide (¬ e.state.last_hash = some e.dumpHash), e.dumpHash) := by
    simp only [check_changes]
    split_ifs with h <;> simp [h]
  simp only [run_backup, hp, hb]
  by_cases hh : e.state.last_hash = some e.dumpHash <;>
    cases hf : e.force <;> simp [hh, hf]

/-- Concrete instance of C4_skip_frame: an unforced run with unchanged
content deletes its dump, attempts no upload, and saves nothing. -/
theorem C4_witness :
    ((run_backup envSkip).dumpDeleted = true ↔
      (envSkip.state.last_hash = some envSkip.dumpHash ∧ envSkip.force = false)) ∧
    ((run_backup envSkip).dumpDeleted = true →
      (run_backup envSkip).uploadCalls = 0 ∧ (run_backup envSkip).savedState = none) ∧
    (run_backup envSkip).uploadCalls ≤ 1 :=
  C4_skip_frame envSkip (by decide)

/-- Claim C5: run_backup returns True exactly when dump production
succeeded; and in the upload branch (digest differs or force set) the
state is persisted with last_hash and last_upload updated regardless of
transfer success, with a history entry appended exactly when the upload
returned a key. -/
theorem C5_upload_branch (e : RunEnv) :
    ((run_backup e).success = (create_backup e.dumpFileName e.dump).1.isSome) ∧
    ((create_backup e.dumpFileName e.dump).1.isSome = true →
      (e.state.last_hash ≠ some e.dumpHash ∨ e.force = true) →
      (run_backup e).savedState = some (uploadBranchState e) ∧
      (uploadBranchState e).last_hash = some e.dumpHash ∧
      (uploadBranchState e).last_upload = some e.now ∧
      (run_backup e).success = true) := by
  constructor
  · cases hp : (create_backup e.dumpFileName e.dump).1 with
    | none => simp [run_backup, hp]
    | some p =>
        simp only [run_backup, hp, Option.isSome_some]
        split_ifs <;> simp
  · intro hd hup
    obtain ⟨p, hp⟩ := Option.isSome_iff_exists.mp hd
    have hb : check_changes e.dumpHash e.state =
        (decide (¬ e.state.last_hash = some e.dumpHash), e.dumpHash) := by
      simp only [check_changes]
      split_ifs with h <;> simp [h]
    have hcond : (decide (¬ e.state.last_hash = some e.dumpHash) || e.force) = true := by
      rcases hup with h | h <;> simp [h]
    simp only [run_backup, hp, hb, hcond, if_true]
    refine ⟨?_, ?_, ?_, ?_⟩
    · simp only [uploadBranchState]
      cases hk : (upload_to_r2 e.config e.dumpFileName e.transferOk).1 <;> simp
    · trivial
    · trivial
    · trivial

/-- Concrete instance of C5_upload_branch: changed content with a failing
remote transfer still persists the updated state and reports success. -/
theorem C5_witness :
    ((run_backup envUploadFail).success =
      (create_backup envUploadFail.dumpFileName envUploadFail.dump).1.isSome) ∧
    ((run_backup envUploadFail).savedState = some (uploadBranchState envUploadFail) ∧
      (uploadBranchState envUploadFail).last_hash = some envUploadFail.dumpHash ∧
      (uploadBranchState envUploadFail).last_upload = some envUploadFail.now ∧
      (run_backup envUploadFail).success = true) :=
  ⟨(C5_upload_branch envUploadFail).1,
   (C5_upload_branch envUploadFail).2 (by decide) (Or.inl (by decide))⟩

theorem run_backup_savedState (e : RunEnv) :
    (run_backup e).savedState =
      if ((create_backup e.dumpFileName e.dump).1.isSome &&
          ((check_changes e.dumpHash e.state).1 || e.force)) = true
      then some (uploadBranchState e) else none := by
  cases hp : (create_backup e.dumpFileName e.dump).1 with
  | none => simp [run_backup, hp]
  | some p =>
      simp only [run_backup, hp, Option.isSome_some, Bool.true_and]
      have hh : (check_changes e.dumpHash e.state).2 = e.dumpHash := by
        simp only [check_changes]
        split_ifs <;> rfl
      by_cases hc : ((check_changes e.dumpHash e.state).1 || e.force) = true
      · simp only [hc, if_true]
        simp only [uploadBranchState, hh]
        cases hk : (upload_to_r2 e.config e.dumpFileName e.transferOk).1 <;> simp [hh]
      · simp [hc]

/-- Claim C6: the persisted history list is bounded: it is empty
initially, and any state saved by a run that started with at most 100
entries again has at most 100, obtained from the previous list plus at
most one appended entry by keeping the most recent 100 in order (a
suffix of the appended list). -/
theorem C6_history_bound (e : RunEnv) (hlen : e.state.backups.length ≤ 100) :
    initialState.backups.length ≤ 100 ∧
    ∀ st, (run_backup e).savedState = some st →
      st.backups.length ≤ 100 ∧
      ∃ appended : List BackupEntry, appended.length ≤ 1 ∧
        st.backups = takeLast 100 (e.state.backups ++ appended) ∧
        List.IsSuffix st.backups (e.state.backups ++ appended) := by
  refine ⟨by simp [initialState], ?_⟩
  intro st hst
  rw [run_backup_savedState] at hst
  split_ifs at hst with hc
  · rw [Option.some.injEq] at hst
    subst hst
    simp only [uploadBranchState]
    cases hk : (upload_to_r2 e.config e.dumpFileName e.transferOk).1 with
    | none =>
        refine ⟨hlen, [], by simp, ?_, ?_⟩
        · rw [List.append_nil, takeLast_of_length_le _ _ hlen]
        · rw [List.append_nil]
    | some k =>
        constructor
        · rw [takeLast_length]
          omega
        · exact ⟨[{ file := e.dumpFileName, hash := e.dumpHash,
                    r2_key := k, timestamp := e.now }],
            by simp, rfl, takeLast_suffix _ _⟩

/-- Concrete instance of C6_history_bound at the saved state of a forced
configured run starting from an empty history. -/
theorem C6_witness :
    (uploadBranchState envForcedR2).backups.length ≤ 100 ∧
    ∃ appended : List BackupEntry, appended.length ≤ 1 ∧
      (uploadBranchState envForcedR2).backups =
        takeLast 100 (envForcedR2.state.backups ++ appended) ∧
      List.IsSuffix (uploadBranchState envForcedR2).backups
        (envForcedR2.state.backups ++ appended) :=
  (C6_history_bound envForcedR2 (by decide)).2 (uploadBranchState envForcedR2) (by decide)

/-- Claim C7: the local retention sweep keeps a file of the backup
directory exactly when it does not both match the backup_*.sql pattern
and have a modification time strictly older than now minus the
configured number of days; equivalently it deletes exactly the matching,
strictly-older files and leaves every other file untouched. -/
theorem C7_local_sweep (keepLocalDays now : Int) (files : List LocalFile)
    (f : LocalFile) (hf : f ∈ files) :
    f ∈ cleanup_local keepLocalDays now files ↔
      ¬(matchesBackupGlob f.name = true ∧
        f.mtime < now - 86400 * keepLocalDays) := by
  simp [cleanup_local, List.mem_filter, hf]
  by_cases hm : matchesBackupGlob f.name = true
  · simp [hm]
  · simp [Bool.not_eq_true] at hm
    simp [hm]

/-- Concrete instance of C7_local_sweep: a matching file newer than the
cutoff survives the sweep. -/
theorem C7_witness :
    ({ name := "backup_db_new.sql", mtime := 86400 * 9 } : LocalFile) ∈
        cleanup_local 7 (86400 * 10) demoFiles ↔
      ¬(matchesBackupGlob "backup_db_new.sql" = true ∧
        (86400 * 9 : Int) < 86400 * 10 - 86400 * 7) :=
  C7_local_sweep 7 (86400 * 10) demoFiles
    { name := "backup_db_new.sql", mtime := 86400 * 9 } (by decide)

/-- Claim C8: when any required R2 credential/config value is absent,
upload_to_r2 returns the not-configured result (no key) without
attempting a transfer, the remote sweep deletes nothing, and a run with
a successful dump still completes (returns True) in local-only mode. -/
theorem C8_not_configured (c : Config) (h : r2Configured c = false) :
    (∀ fname tOk, upload_to_r2 c fname tOk = (none, false)) ∧
    (∀ now objs, cleanup_r2 c now objs = objs) ∧
    (∀ e : RunEnv, e.config = c →
      (create_backup e.dumpFileName e.dump).1.isSome = true →
      (run_backup e).success = true) := by
  refine ⟨fun fname tOk => ?_, fun now objs => ?_, fun e _hec hd => ?_⟩
  · simp [upload_to_r2, h]
  · simp [cleanup_r2, h]
  · obtain ⟨p, hp⟩ := Option.isSome_iff_exists.mp hd
    simp only [run_backup, hp]
    split_ifs <;> rfl

/-- Concrete instance of C8_not_configured with every R2 field unset. -/
theorem C8_witness :
    upload_to_r2 cfgNoR2 "backup_db_20250106_000000.sql" true = (none, false) ∧
    cleanup_r2 cfgNoR2 0 demoObjs = demoObjs ∧
    (run_backup envForcedNoR2).success = true :=
  ⟨(C8_not_configured cfgNoR2 (by decide)).1 "backup_db_20250106_000000.sql" true,
   (C8_not_configured cfgNoR2 (by decide)).2.1 0 demoObjs,
   (C8_not_configured cfgNoR2 (by decide)).2.2 envForcedNoR2 rfl (by decide)⟩

/-- Claim C9: the streaming digest folded over 8192-byte chunks equals
the one-pass digest of the whole byte sequence, and the computation is
deterministic: identical byte content yields an identical digest. -/
theorem C9_streaming_digest (md5 : List Nat → String) (content : List Nat) :
    calculate_hash md5 content = onePassDigest md5 content ∧
    ∀ content2, content = content2 →
      calculate_hash md5 content = calculate_hash md5 content2 := by
  refine ⟨?_, fun c2 hc => by rw [hc]⟩
  simp [calculate_hash, onePassDigest, readChunks_flatten]

/-- Concrete instance of C9_streaming_digest on a 20000-byte content
spanning three chunks. -/
theorem C9_witness :
    calculate_hash demoMd5 demoContent = onePassDigest demoMd5 demoContent ∧
    calculate_hash demoMd5 demoContent = calculate_hash demoMd5 demoContent :=
  ⟨(C9_streaming_digest demoMd5 demoContent).1,
   (C9_streaming_digest demoMd5 demoContent).2 demoContent rfl⟩

/-- Claim C10: with no recorded hash (last_hash is None, as on a first
run), check_changes reports a change and a successful dump takes the
upload path without the force flag; the skip branch (immediate dump
deletion) is reachable only when a previous hash was recorded and equals
the new digest. -/
theorem C10_first_run (e : RunEnv) :
    (e.state.last_hash = none →
      (check_changes e.dumpHash e.state).1 = true ∧
      ((create_backup e.dumpFileName e.dump).1.isSome = true →
        (run_backup e).uploadCalls = 1 ∧ (run_backup e).dumpDeleted = false)) ∧
    ((run_backup e).dumpDeleted = true → e.state.last_hash = some e.dumpHash) := by
  have hx : (check_changes e.dumpHash e.state).1 = false ↔
      e.state.last_hash = some e.dumpHash := by
    simp only [check_changes]
    split_ifs with h <;> simp [h]
  constructor
  · intro hn
    have hcc : (check_changes e.dumpHash e.state).1 = true := by
      simp [check_changes, hn]
    refine ⟨hcc, fun hd => ?_⟩
    obtain ⟨p, hp⟩ := Option.isSome_iff_exists.mp hd
    simp [run_backup, hp, hcc]
  · intro hdel
    cases hp : (create_backup e.dumpFileName e.dump).1 with
    | none => simp [run_backup, hp] at hdel
    | some p =>
        simp only [run_backup, hp] at hdel
        split_ifs at hdel with hc
        rw [Bool.or_eq_true, not_or] at hc
        exact hx.mp (by simpa using hc.1)

/-- Concrete instance of C10_first_run: a first run with the default
empty state uploads and does not delete its dump. -/
theorem C10_witness :
    (check_changes envFirstRun.dumpHash envFirstRun.state).1 = true ∧
    (run_backup envFirstRun).uploadCalls = 1 ∧
    (run_backup envFirstRun).dumpDeleted = false := by
  have h := (C10_first_run envFirstRun).1 rfl
  exact ⟨h.1, h.2 (by decide)⟩
